import Mathlib

/-!
Shallow embedding of the RFS Activ dashboard auto-login script
(`src/login.js`, with the TypeScript variant in `src/unnamed/part_001`).

The script drives a browser through a login form with bounded retry
loops, then navigates to a dashboard and schedules a periodic refresh.
We embed each per-attempt interaction sequence as a trace of events
driven by an environment record describing how the page responds
(element presence, wait outcomes, the URL reached), and embed the two
retry loops and the surrounding driver as pure functions over those
environments.  The preferences-file patch (`updatePreferences`) is
embedded over an explicit JSON value model.
-/

set_option autoImplicit false

namespace RFSActiv

/-! ## URLs and selectors (the `pages` table, src/login.js lines 85-100) -/

/-- `pages.login.url` -/
def loginUrl : String := "https://activ.rfs.nsw.gov.au/webapp/loginu"

/-- `pages.webapp.url` -/
def webappUrl : String := "https://activ.rfs.nsw.gov.au/webapp"

/-- `pages.dashboard.url` -/
def dashboardUrl : String := "https://activ.rfs.nsw.gov.au/webapp/dashboard"

/-- The five CSS selectors used by the login form flow, as symbolic names. -/
inductive Sel where
  | username
  | password
  | nextButton
  | verifyButton
  | rememberMe
  deriving DecidableEq

/-- The literal CSS selector text of each symbolic selector
(the `pages.login` record). -/
def selCss : Sel → String
  | Sel.username => "#input28"
  | Sel.password => "#input60"
  | Sel.nextButton => "input.button.button-primary[type=\"submit\"][value=\"Next\"]"
  | Sel.verifyButton => "input.button.button-primary[type=\"submit\"][value=\"Verify\"]"
  | Sel.rememberMe => "label[for=\"input36\"]"

/-- Navigation targets of the two `page.goto` calls. -/
inductive Target where
  | login
  | dashboard
  deriving DecidableEq

/-- URL passed to `page.goto` for each target. -/
def targetUrl : Target → String
  | Target.login => loginUrl
  | Target.dashboard => dashboardUrl

/-! ## JavaScript `String.prototype.includes`

`page.url().includes(...)` is substring containment; we embed it over
character lists. -/

/-- Whether `pat` occurs at the front of `s` (character-list version). -/
def charsAtFront : List Char → List Char → Bool
  | [], _ => true
  | _ :: _, [] => false
  | a :: asX, b :: bs => a == b && charsAtFront asX bs

/-- Whether `pat` occurs anywhere inside `s` (character-list version). -/
def charsFind (pat : List Char) : List Char → Bool
  | [] => pat.isEmpty
  | c :: rest => charsAtFront pat (c :: rest) || charsFind pat rest

/-- JavaScript `hay.includes(pat)`: substring containment, not a prefix
test. -/
def jsIncludes (hay pat : String) : Bool :=
  charsFind pat.data hay.data

/-- `isloggedInPage` (src/unnamed/part_001 lines 185-191); src/login.js
inlines the identical test at line 187: the current URL contains the
dashboard URL or the webapp base URL. -/
def isloggedInPage (u : String) : Bool :=
  jsIncludes u dashboardUrl || jsIncludes u webappUrl

/-! ## Events and per-attempt environments -/

/-- One observable browser interaction performed by the script. -/
inductive Ev where
  | goto (t : Target)
  | waitVisible (s : Sel)
  | focus (s : Sel)
  | typeText (s : Sel)
  | click (s : Sel)
  | waitNavigation
  | delay (ms : Nat)
  | zoom
  | scheduleRefresh (periodMs : Nat)
  deriving DecidableEq

/-- How the page responds during one login attempt: whether `page.goto`
throws, whether `page.$(username)` finds the field, the outcome of each
bounded `waitForSelector` / `waitForNavigation`, whether the remember-me
element exists, and `page.url()` after the final navigation. -/
structure AttemptEnv where
  gotoFails : Bool
  usernamePresent : Bool
  usernameVisibleOk : Bool
  rememberMePresent : Bool
  nextVisibleOk : Bool
  passwordVisibleOk : Bool
  verifyVisibleOk : Bool
  navOk : Bool
  urlAfter : String
  deriving DecidableEq

/-- How the page responds during one dashboard-navigation attempt. -/
structure NavEnv where
  gotoFails : Bool
  urlAfter : String
  deriving DecidableEq

/-! An attempt computes `(trace, outcome)`: `none` means an exception was
thrown inside the attempt (caught at the attempt boundary), `some b`
means the attempt ran to its URL check with result `b`. -/

/-- Emit event `e`, then continue with `k`. -/
def emit (e : Ev) (k : List Ev × Option Bool) : List Ev × Option Bool :=
  (e :: k.1, k.2)

/-- Emit event `e`; if `ok` is false the wait timed out and the attempt
throws, otherwise continue with `k`. -/
def step (e : Ev) (ok : Bool) (k : List Ev × Option Bool) : List Ev × Option Bool :=
  if ok then (e :: k.1, k.2) else ([e], none)

/-- The attempt throws with no further events. -/
def abort : List Ev × Option Bool := ([], none)

/-- The attempt completes with URL-check result `b`. -/
def done (b : Bool) : List Ev × Option Bool := ([], some b)

/-- The form flow from the Next button onward (src/login.js lines
171-187): wait for Next, click it, wait for the password field, type the
password, wait for Verify, click it, wait for navigation, then check the
destination URL with the `isloggedInPage` test. -/
def formFlowTail (env : AttemptEnv) : List Ev × Option Bool :=
  step (Ev.waitVisible Sel.nextButton) env.nextVisibleOk <|
  emit (Ev.click Sel.nextButton) <|
  step (Ev.waitVisible Sel.password) env.passwordVisibleOk <|
  emit (Ev.typeText Sel.password) <|
  step (Ev.waitVisible Sel.verifyButton) env.verifyVisibleOk <|
  emit (Ev.click Sel.verifyButton) <|
  step Ev.waitNavigation env.navOk <|
  done (isloggedInPage env.urlAfter)

/-- One login attempt, src/login.js lines 152-198: navigate to the login
URL; if the username field is present run the form flow (wait for the
username field, focus it, type the username, click remember-me when the
element exists, then `formFlowTail`); if the field is absent the attempt
just logs "Login form not detected" and completes unsuccessfully. -/
def loginAttempt (env : AttemptEnv) : List Ev × Option Bool :=
  emit (Ev.goto Target.login) <|
  if env.gotoFails then abort
  else if env.usernamePresent then
    step (Ev.waitVisible Sel.username) env.usernameVisibleOk <|
    emit (Ev.focus Sel.username) <|
    emit (Ev.typeText Sel.username) <|
    if env.rememberMePresent then emit (Ev.click Sel.rememberMe) (formFlowTail env)
    else formFlowTail env
  else done false

/-- One login attempt of the TypeScript variant, src/unnamed/part_001
lines 106-143: same flow without the `page.focus` call, and when the
username field is absent the attempt succeeds iff `isloggedInPage`
accepts the current URL. -/
def loginAttemptTs (env : AttemptEnv) : List Ev × Option Bool :=
  emit (Ev.goto Target.login) <|
  if env.gotoFails then abort
  else if env.usernamePresent then
    step (Ev.waitVisible Sel.username) env.usernameVisibleOk <|
    emit (Ev.typeText Sel.username) <|
    if env.rememberMePresent then emit (Ev.click Sel.rememberMe) (formFlowTail env)
    else formFlowTail env
  else done (isloggedInPage env.urlAfter)

/-- One dashboard-navigation attempt, src/login.js lines 212-226:
navigate to the dashboard URL and check that the current URL contains
it. -/
def navAttempt (env : NavEnv) : List Ev × Option Bool :=
  emit (Ev.goto Target.dashboard) <|
  if env.gotoFails then abort
  else done (jsIncludes env.urlAfter dashboardUrl)

/-! ## The bounded-retry loop shared by both phases -/

/-- The `while (attempts < maxAttempts)` loop body shared by both phases:
run the attempt; on a successful URL check, `break` before the delay and
the increment; otherwise sleep `delayMs` and increment the counter.
`fuel` is `maxAttempts - attempts`; the result is the final counter
value, the full trace, and whether the loop exited by `break`. -/
def phaseLoopGo (att : Nat → List Ev × Option Bool) (delayMs : Nat) :
    Nat → Nat → Nat × List Ev × Bool
  | attempts, 0 => (attempts, [], false)
  | attempts, fuel + 1 =>
    if (att attempts).2 = some true then (attempts, (att attempts).1, true)
    else
      let r := phaseLoopGo att delayMs (attempts + 1) fuel
      (r.1, (att attempts).1 ++ Ev.delay delayMs :: r.2.1, r.2.2)

/-- A whole phase: run the loop from counter 0, then (src/login.js lines
203-205 and 231-233) throw the exhaustion error iff the final counter
equals `maxAttempts`. -/
def runPhase (att : Nat → List Ev × Option Bool) (maxAttempts delayMs : Nat)
    (exhaustMsg : String) : Nat × List Ev × Except String Unit :=
  let r := phaseLoopGo att delayMs 0 maxAttempts
  (r.1, r.2.1, if r.1 = maxAttempts then Except.error exhaustMsg else Except.ok ())

/-- Message of the login-phase exhaustion error (src/login.js line 204). -/
def loginExhaustMsg : String := "Max login attempts reached. Unable to login."

/-- Message of the navigation-phase exhaustion error (src/login.js line 232). -/
def navExhaustMsg : String := "Max navigation attempts reached. Unable to navigate to dashboard."

/-- Period of the auto-refresh timer: `3600000 * 6` milliseconds
(src/login.js line 242). -/
def refreshPeriodMs : Nat := 3600000 * 6

/-- The driver `loginToRFSActiv` (src/login.js lines 128-247),
parameterised by the page's responses at each attempt and by the two
attempt bounds and the retry delay (the source fixes all three at 5, 5
and 5000).  The login phase runs first; its exhaustion error skips the
navigation phase and is caught by the function's outer catch, returned
here as `some message`.  After both phases succeed the driver applies
the zoom adjustment and schedules the refresh timer. -/
def loginToRFSActiv (lenvs : Nat → AttemptEnv) (nenvs : Nat → NavEnv)
    (maxLoginAttempts maxNavAttempts retryDelay : Nat) : List Ev × Option String :=
  let lr := runPhase (fun i => loginAttempt (lenvs i)) maxLoginAttempts retryDelay loginExhaustMsg
  match lr.2.2 with
  | Except.error e => (lr.2.1, some e)
  | Except.ok _ =>
    let nr := runPhase (fun i => navAttempt (nenvs i)) maxNavAttempts retryDelay navExhaustMsg
    match nr.2.2 with
    | Except.error e => (lr.2.1 ++ nr.2.1, some e)
    | Except.ok _ => (lr.2.1 ++ nr.2.1 ++ [Ev.zoom, Ev.scheduleRefresh refreshPeriodMs], none)

/-! ## Trace counters -/

/-- Is this event the login-page navigation (one per login attempt)? -/
def isGotoLogin : Ev → Bool
  | Ev.goto Target.login => true
  | _ => false

/-- Is this event the dashboard navigation (one per navigation attempt)? -/
def isGotoDash : Ev → Bool
  | Ev.goto Target.dashboard => true
  | _ => false

/-- Is this event a retry delay? -/
def isDelay : Ev → Bool
  | Ev.delay _ => true
  | _ => false

/-- Is this event a form interaction (typing, clicking or focusing)? -/
def isFormInteraction : Ev → Bool
  | Ev.typeText _ => true
  | Ev.click _ => true
  | Ev.focus _ => true
  | _ => false

/-- Count the events of a trace satisfying `p`. -/
def countEv (p : Ev → Bool) (tr : List Ev) : Nat := (tr.filter p).length

/-! ## The preferences patch (`updatePreferences`, src/login.js lines 43-83)

We model JSON values explicitly; an object is an association list of
fields in insertion order, as JavaScript objects are. -/

/-- A JSON value. -/
inductive JVal where
  | jnull
  | jbool (b : Bool)
  | jnum (n : Int)
  | jstr (s : String)
  | jarr (xs : List JVal)
  | jobj (fields : List (String × JVal))

/-- JavaScript property assignment `o[k] = v` on an object's field list:
overwrite the existing property in place, else append it. -/
def setKey (k : String) (v : JVal) : List (String × JVal) → List (String × JVal)
  | [] => [(k, v)]
  | (k', v') :: rest => if k' = k then (k, v) :: rest else (k', v') :: setKey k v rest

/-- JavaScript property read `o[k]` on an object's field list. -/
def getKey (k : String) : List (String × JVal) → Option JVal
  | [] => none
  | (k', v') :: rest => if k' = k then some v' else getKey k rest

/-- The fields of a value when it is an object, else no fields (the
spread of a missing `preferences.profile` contributes nothing, and
`preferences.session || ` an empty object replaces a missing session). -/
def objFields : Option JVal → List (String × JVal)
  | some (JVal.jobj fs) => fs
  | _ => []

/-- The in-memory patch applied to a parsed preferences document
(src/login.js lines 63-75): rebuild `profile` from its spread with the
two password-manager flags forced off, force the two credentials flags
off, then rebuild `session` with `restore_on_startup` 0 and an empty
`restore_on_startup_urls`. -/
def patchPreferences (p : List (String × JVal)) : List (String × JVal) :=
  let newProfile :=
    setKey "password_manager_enabled" (JVal.jbool false)
      (setKey "password_manager_leak_detection" (JVal.jbool false)
        (objFields (getKey "profile" p)))
  let p1 := setKey "profile" (JVal.jobj newProfile) p
  let p2 := setKey "credentials_enable_service" (JVal.jbool false) p1
  let p3 := setKey "credentials_enable_autosignin" (JVal.jbool false) p2
  let newSession :=
    setKey "restore_on_startup_urls" (JVal.jarr [])
      (setKey "restore_on_startup" (JVal.jnum 0)
        (objFields (getKey "session" p3)))
  setKey "session" (JVal.jobj newSession) p3

/-- The on-disk state of the Preferences file: missing, present but
unreadable or unparsable, or a parsed JSON object. -/
inductive PrefsFile where
  | absent
  | invalid (raw : String)
  | valid (doc : List (String × JVal))

/-- `updatePreferences` at the file level (src/login.js lines 43-83):
a missing file skips the update and returns; a read or parse error is
logged but execution continues with the empty object, so the patch of
an empty document is written out; otherwise the parsed document is
patched and written back.  `writeOk` is whether `fs.writeFileSync`
succeeds; a write error is logged and leaves the file as it was. -/
def updatePreferences (f : PrefsFile) (writeOk : Bool) : PrefsFile :=
  match f with
  | PrefsFile.absent => PrefsFile.absent
  | PrefsFile.invalid raw =>
    if writeOk then PrefsFile.valid (patchPreferences []) else PrefsFile.invalid raw
  | PrefsFile.valid doc =>
    if writeOk then PrefsFile.valid (patchPreferences doc) else PrefsFile.valid doc

/-- The bootstrap entry point (src/login.js lines 253-256): patch the
preferences file, then run the driver.  `updatePreferences` is total, so
the driver runs whatever the file's state was; the result pairs the new
file state with the driver's outcome. -/
def main (f : PrefsFile) (writeOk : Bool) (lenvs : Nat → AttemptEnv) (nenvs : Nat → NavEnv)
    (maxLoginAttempts maxNavAttempts retryDelay : Nat) :
    PrefsFile × (List Ev × Option String) :=
  (updatePreferences f writeOk,
   loginToRFSActiv lenvs nenvs maxLoginAttempts maxNavAttempts retryDelay)

/-! ## Auxiliary predicates and concrete page behaviours used in the
statements below -/

/-- Is this event the click on the remember-me control? -/
def isRmClick : Ev → Bool
  | Ev.click Sel.rememberMe => true
  | _ => false

/-- Is this event one of the interaction kinds enumerated by the form
flow: a bounded visibility wait, typing, a click, or the final
navigation wait? (`page.focus` and `page.goto` are not among them.) -/
def isFormStep : Ev → Bool
  | Ev.waitVisible _ => true
  | Ev.typeText _ => true
  | Ev.click _ => true
  | Ev.waitNavigation => true
  | _ => false

/-- An `Option JVal` that is either absent or a JSON object: the shape
the Chrome preferences file actually gives `profile` and `session`, and
the domain on which `objFields` agrees with JavaScript's spread and
`||`-defaulting. -/
def objOrAbsent (v : Option JVal) : Prop :=
  v = none ∨ ∃ fs, v = some (JVal.jobj fs)

/-- A page whose Next-button wait times out on every attempt (the
spec's exhaustion scenario); the username form is present. -/
def nextTimeoutEnv : AttemptEnv :=
  { gotoFails := false, usernamePresent := true, usernameVisibleOk := true,
    rememberMePresent := false, nextVisibleOk := false, passwordVisibleOk := true,
    verifyVisibleOk := true, navOk := true, urlAfter := "" }

/-- A page of an already-authenticated session: navigating to the login
URL redirects to the dashboard, so the username field is absent and the
current URL is the dashboard URL. -/
def alreadyAuthedEnv : AttemptEnv :=
  { gotoFails := false, usernamePresent := false, usernameVisibleOk := true,
    rememberMePresent := false, nextVisibleOk := true, passwordVisibleOk := true,
    verifyVisibleOk := true, navOk := true, urlAfter := dashboardUrl }

/-- A page where the full form flow runs but the post-form navigation
lands back on the login URL itself. -/
def landedOnLoginEnv : AttemptEnv :=
  { gotoFails := false, usernamePresent := true, usernameVisibleOk := true,
    rememberMePresent := false, nextVisibleOk := true, passwordVisibleOk := true,
    verifyVisibleOk := true, navOk := true, urlAfter := loginUrl }

/-- A fully cooperative page: the form is present, every wait succeeds,
the remember-me control exists, and the form flow lands on the
dashboard. -/
def happyEnv : AttemptEnv :=
  { gotoFails := false, usernamePresent := true, usernameVisibleOk := true,
    rememberMePresent := true, nextVisibleOk := true, passwordVisibleOk := true,
    verifyVisibleOk := true, navOk := true, urlAfter := dashboardUrl }

/-- A cooperative dashboard-navigation page. -/
def happyNavEnv : NavEnv :=
  { gotoFails := false, urlAfter := dashboardUrl }

/-- A dashboard-navigation page whose `goto` always throws. -/
def failNavEnv : NavEnv :=
  { gotoFails := true, urlAfter := "" }

/-- Page behaviour per attempt: the first attempt's Next-button wait
times out, every later attempt is fully cooperative. -/
def failThenHappy : Nat → AttemptEnv :=
  fun i => if i = 0 then nextTimeoutEnv else happyEnv

/-- A sample parsed preferences document with fields the patch does not
designate, at the top level and inside `profile` and `session`. -/
def demoPrefs : List (String × JVal) :=
  [("homepage", JVal.jstr "about:blank"),
   ("profile", JVal.jobj [("name", JVal.jstr "Default"),
                          ("password_manager_enabled", JVal.jbool true)]),
   ("session", JVal.jobj [("startup_urls_migration_time", JVal.jnum 7)]),
   ("bookmarks", JVal.jarr [JVal.jstr "a"])]

/-! ## Basic counting lemmas -/

theorem countEv_cons (p : Ev → Bool) (e : Ev) (tr : List Ev) :
    countEv p (e :: tr) = (if p e then 1 else 0) + countEv p tr := by
  by_cases h : p e <;> simp [countEv, List.filter_cons, h, Nat.add_comm]

theorem countEv_append (p : Ev → Bool) (t1 t2 : List Ev) :
    countEv p (t1 ++ t2) = countEv p t1 + countEv p t2 := by
  simp [countEv, List.filter_append]

/-- Every login attempt navigates to the login page exactly once. -/
theorem loginAttempt_count_goto (env : AttemptEnv) :
    countEv isGotoLogin (loginAttempt env).1 = 1 := by
  rcases env with ⟨gf, up, uv, rm, nv, pv, vv, nav, url⟩
  cases gf <;> cases up <;> cases uv <;> cases rm <;> cases nv <;> cases pv <;>
    cases vv <;> cases nav <;> rfl

/-- A login attempt never navigates to the dashboard. -/
theorem loginAttempt_count_gotoDash (env : AttemptEnv) :
    countEv isGotoDash (loginAttempt env).1 = 0 := by
  rcases env with ⟨gf, up, uv, rm, nv, pv, vv, nav, url⟩
  cases gf <;> cases up <;> cases uv <;> cases rm <;> cases nv <;> cases pv <;>
    cases vv <;> cases nav <;> rfl

/-- A login attempt performs no retry delay of its own. -/
theorem loginAttempt_count_delay (env : AttemptEnv) :
    countEv isDelay (loginAttempt env).1 = 0 := by
  rcases env with ⟨gf, up, uv, rm, nv, pv, vv, nav, url⟩
  cases gf <;> cases up <;> cases uv <;> cases rm <;> cases nv <;> cases pv <;>
    cases vv <;> cases nav <;> rfl

/-- Every navigation attempt navigates to the dashboard exactly once. -/
theorem navAttempt_count_goto (env : NavEnv) :
    countEv isGotoDash (navAttempt env).1 = 1 := by
  rcases env with ⟨gf, url⟩
  cases gf <;> rfl

/-- A navigation attempt performs no retry delay of its own. -/
theorem navAttempt_count_delay (env : NavEnv) :
    countEv isDelay (navAttempt env).1 = 0 := by
  rcases env with ⟨gf, url⟩
  cases gf <;> rfl

/-! ## The retry loop: exhaustion and first success -/

/-- If every attempt fails, the loop runs through its whole fuel and the
counter advances by exactly the fuel. -/
theorem phaseLoopGo_allFail (att : Nat → List Ev × Option Bool) (d : Nat)
    (h : ∀ i, (att i).2 ≠ some true) :
    ∀ (fuel a : Nat), (phaseLoopGo att d a fuel).1 = a + fuel ∧
      (phaseLoopGo att d a fuel).2.2 = false := by
  intro fuel
  induction fuel with
  | zero => intro a; simp [phaseLoopGo]
  | succ n ih =>
    intro a
    simp only [phaseLoopGo, if_neg (h a)]
    have := ih (a + 1)
    exact ⟨by rw [this.1]; omega, this.2⟩

/-- Event counts of an all-fail loop: each of the `fuel` iterations
contributes the per-attempt count `c` plus one `delay` event when `p`
counts delays. -/
theorem countEv_phaseLoopGo_allFail (att : Nat → List Ev × Option Bool) (d : Nat)
    (p : Ev → Bool) (c : Nat)
    (h : ∀ i, (att i).2 ≠ some true) (hc : ∀ i, countEv p (att i).1 = c) :
    ∀ (fuel a : Nat), countEv p (phaseLoopGo att d a fuel).2.1
      = fuel * (c + if p (Ev.delay d) then 1 else 0) := by
  intro fuel
  induction fuel with
  | zero => intro a; simp [phaseLoopGo, countEv]
  | succ n ih =>
    intro a
    simp only [phaseLoopGo, if_neg (h a)]
    rw [countEv_append, countEv_cons, hc a, ih (a + 1)]
    ring

/-- If the first successful attempt is attempt `k` (0-indexed), the loop
stops there: the counter ends at `k` and the loop reports success,
having run `k` failed attempts and the successful one. -/
theorem phaseLoopGo_firstSucc (att : Nat → List Ev × Option Bool) (d : Nat) (k : Nat)
    (hk : (att k).2 = some true) (hlt : ∀ i, i < k → (att i).2 ≠ some true) :
    ∀ (fuel a : Nat), a ≤ k → k < a + fuel →
      (phaseLoopGo att d a fuel).1 = k ∧
      (phaseLoopGo att d a fuel).2.2 = true := by
  intro fuel
  induction fuel with
  | zero => intro a h1 h2; omega
  | succ n ih =>
    intro a h1 h2
    by_cases ha : a = k
    · subst ha
      simp [phaseLoopGo, hk]
    · have halt : a < k := lt_of_le_of_ne h1 ha
      simp only [phaseLoopGo, if_neg (hlt a halt)]
      exact ⟨(ih (a + 1) halt (by omega)).1, (ih (a + 1) halt (by omega)).2⟩

/-- Event counts when the first success is attempt `k`: the `k` failed
attempts each contribute `c` plus a delay when counted, and the final
successful attempt contributes `c` with no delay after it. -/
theorem countEv_phaseLoopGo_firstSucc (att : Nat → List Ev × Option Bool) (d : Nat)
    (p : Ev → Bool) (c : Nat) (k : Nat)
    (hk : (att k).2 = some true) (hlt : ∀ i, i < k → (att i).2 ≠ some true)
    (hc : ∀ i, countEv p (att i).1 = c) :
    ∀ (fuel a : Nat), a ≤ k → k < a + fuel →
      countEv p (phaseLoopGo att d a fuel).2.1
        = (k - a) * (c + if p (Ev.delay d) then 1 else 0) + c := by
  intro fuel
  induction fuel with
  | zero => intro a h1 h2; omega
  | succ n ih =>
    intro a h1 h2
    by_cases ha : a = k
    · subst ha
      simp [phaseLoopGo, hk, hc]
    · have halt : a < k := lt_of_le_of_ne h1 ha
      simp only [phaseLoopGo, if_neg (hlt a halt)]
      rw [countEv_append, countEv_cons, hc a, ih (a + 1) halt (by omega)]
      have hs : k - a = (k - (a + 1)) + 1 := by omega
      rw [hs]
      ring

/-! ## `runPhase` projections -/

theorem runPhase_fst (att : Nat → List Ev × Option Bool) (m d : Nat) (msg : String) :
    (runPhase att m d msg).1 = (phaseLoopGo att d 0 m).1 := rfl

theorem runPhase_trace (att : Nat → List Ev × Option Bool) (m d : Nat) (msg : String) :
    (runPhase att m d msg).2.1 = (phaseLoopGo att d 0 m).2.1 := rfl

theorem runPhase_result (att : Nat → List Ev × Option Bool) (m d : Nat) (msg : String) :
    (runPhase att m d msg).2.2
      = if (phaseLoopGo att d 0 m).1 = m then Except.error msg else Except.ok () := rfl

/-! ## Association-list lemmas for the preferences patch -/

/-- Assigning one property leaves every other property unchanged. -/
theorem getKey_setKey_ne (k k' : String) (h : k ≠ k') (v : JVal) :
    ∀ l : List (String × JVal), getKey k (setKey k' v l) = getKey k l := by
  have hne : ¬ k' = k := fun e => h e.symm
  intro l
  induction l with
  | nil => simp [setKey, getKey, hne]
  | cons hd tl ih =>
    rcases hd with ⟨a, b⟩
    by_cases hak : a = k'
    · subst hak
      simp [setKey, getKey, hne]
    · by_cases hk : a = k
      · subst hk
        simp [setKey, getKey, hak]
      · simp [setKey, getKey, hak, hk, ih]

/-- Reading back the property just assigned gives the assigned value. -/
theorem getKey_setKey_eq (k : String) (v : JVal) :
    ∀ l : List (String × JVal), getKey k (setKey k v l) = some v := by
  intro l
  induction l with
  | nil => simp [setKey, getKey]
  | cons hd tl ih =>
    rcases hd with ⟨a, b⟩
    by_cases hak : a = k
    · subst hak
      simp [setKey, getKey]
    · simp [setKey, getKey, hak, ih]

/-! ## The claims -/

/-- C1: the spec says that when the username field is absent and the
current URL already matches the dashboard or webapp base URL, the login
phase succeeds after one attempt with zero form interactions.  The
TypeScript variant (src/unnamed/part_001) implements exactly that, but
src/login.js does not: its absent-field branch unconditionally records
the attempt as failed ("Login form not detected. Retrying..."), so an
already-authenticated session exhausts all five attempts with zero form
interactions and raises the exhaustion error — contradicting the file's
own header ("Checks for existing login sessions to avoid redundant
logins").  This theorem evaluates both embeddings at that page
behaviour. -/
theorem c1_absent_username_already_authed :
    isloggedInPage dashboardUrl = true ∧
    (runPhase (fun _ => loginAttempt alreadyAuthedEnv) 5 5000 loginExhaustMsg).2.2
      = Except.error loginExhaustMsg ∧
    (runPhase (fun _ => loginAttempt alreadyAuthedEnv) 5 5000 loginExhaustMsg).1 = 5 ∧
    countEv isGotoLogin
      (runPhase (fun _ => loginAttempt alreadyAuthedEnv) 5 5000 loginExhaustMsg).2.1 = 5 ∧
    countEv isFormInteraction
      (runPhase (fun _ => loginAttempt alreadyAuthedEnv) 5 5000 loginExhaustMsg).2.1 = 0 ∧
    (runPhase (fun _ => loginAttemptTs alreadyAuthedEnv) 5 5000 loginExhaustMsg).2.2
      = Except.ok () ∧
    (runPhase (fun _ => loginAttemptTs alreadyAuthedEnv) 5 5000 loginExhaustMsg).1 = 0 ∧
    countEv isGotoLogin
      (runPhase (fun _ => loginAttemptTs alreadyAuthedEnv) 5 5000 loginExhaustMsg).2.1 = 1 ∧
    countEv isFormInteraction
      (runPhase (fun _ => loginAttemptTs alreadyAuthedEnv) 5 5000 loginExhaustMsg).2.1 = 0 :=
  ⟨rfl, rfl, rfl, rfl, rfl, rfl, rfl, rfl, rfl⟩

/-- C2: if every attempt of a phase fails, the phase performs exactly
its `maxAttempts` bound of attempts (counted by its `goto` events and by
the final counter) and raises the exhaustion error; the login phase's
exhaustion skips the navigation phase entirely (no dashboard `goto` in
the driver's trace) and surfaces the login exhaustion message. -/
theorem c2_phase_exhaustion (N M d : Nat) (lenvs : Nat → AttemptEnv) (nenvs : Nat → NavEnv)
    (hl : ∀ i, (loginAttempt (lenvs i)).2 ≠ some true)
    (hn : ∀ i, (navAttempt (nenvs i)).2 ≠ some true) :
    countEv isGotoLogin (runPhase (fun i => loginAttempt (lenvs i)) N d loginExhaustMsg).2.1 = N ∧
    (runPhase (fun i => loginAttempt (lenvs i)) N d loginExhaustMsg).2.2
      = Except.error loginExhaustMsg ∧
    countEv isGotoDash (runPhase (fun i => navAttempt (nenvs i)) M d navExhaustMsg).2.1 = M ∧
    (runPhase (fun i => navAttempt (nenvs i)) M d navExhaustMsg).2.2
      = Except.error navExhaustMsg ∧
    countEv isGotoDash (loginToRFSActiv lenvs nenvs N M d).1 = 0 ∧
    (loginToRFSActiv lenvs nenvs N M d).2 = some loginExhaustMsg := by
  have hl1 : (phaseLoopGo (fun i => loginAttempt (lenvs i)) d 0 N).1 = N := by
    rw [(phaseLoopGo_allFail _ d hl N 0).1]; omega
  have hn1 : (phaseLoopGo (fun i => navAttempt (nenvs i)) d 0 M).1 = M := by
    rw [(phaseLoopGo_allFail _ d hn M 0).1]; omega
  have hlc : countEv isGotoLogin
      (runPhase (fun i => loginAttempt (lenvs i)) N d loginExhaustMsg).2.1 = N := by
    rw [runPhase_trace,
      countEv_phaseLoopGo_allFail _ d isGotoLogin 1 hl
        (fun i => loginAttempt_count_goto (lenvs i)) N 0]
    simp [isGotoLogin]
  have hlres : (runPhase (fun i => loginAttempt (lenvs i)) N d loginExhaustMsg).2.2
      = Except.error loginExhaustMsg := by
    rw [runPhase_result, hl1, if_pos rfl]
  have hnc : countEv isGotoDash
      (runPhase (fun i => navAttempt (nenvs i)) M d navExhaustMsg).2.1 = M := by
    rw [runPhase_trace,
      countEv_phaseLoopGo_allFail _ d isGotoDash 1 hn
        (fun i => navAttempt_count_goto (nenvs i)) M 0]
    simp [isGotoDash]
  have hnres : (runPhase (fun i => navAttempt (nenvs i)) M d navExhaustMsg).2.2
      = Except.error navExhaustMsg := by
    rw [runPhase_result, hn1, if_pos rfl]
  have hdash0 : countEv isGotoDash
      (runPhase (fun i => loginAttempt (lenvs i)) N d loginExhaustMsg).2.1 = 0 := by
    rw [runPhase_trace,
      countEv_phaseLoopGo_allFail _ d isGotoDash 0 hl
        (fun i => loginAttempt_count_gotoDash (lenvs i)) N 0]
    simp [isGotoDash]
  refine ⟨hlc, hlres, hnc, hnres, ?_, ?_⟩
  · simp only [loginToRFSActiv, hlres]
    exact hdash0
  · simp only [loginToRFSActiv, hlres]

/-- C2 witness: the exhaustion theorem evaluated with bound 2, a page
whose Next-button wait always times out and a dashboard navigation that
always throws. -/
theorem c2_phase_exhaustion_witness :
    countEv isGotoLogin
      (runPhase (fun _ => loginAttempt nextTimeoutEnv) 2 5000 loginExhaustMsg).2.1 = 2 ∧
    (loginToRFSActiv (fun _ => nextTimeoutEnv) (fun _ => failNavEnv) 2 2 5000).2
      = some loginExhaustMsg ∧
    countEv isGotoDash
      (loginToRFSActiv (fun _ => nextTimeoutEnv) (fun _ => failNavEnv) 2 2 5000).1 = 0 := by
  have h := c2_phase_exhaustion 2 2 5000 (fun _ => nextTimeoutEnv) (fun _ => failNavEnv)
    (fun _ => show (loginAttempt nextTimeoutEnv).2 ≠ some true by decide)
    (fun _ => show (navAttempt failNavEnv).2 ≠ some true by decide)
  exact ⟨h.1, h.2.2.2.2.2, h.2.2.2.2.1⟩

/-- C3 counterexample: the spec's scenario "maxAttempts = 3, every
Next-button wait times out" claims exactly 2 retry delays; the code
sleeps `retryDelay` after every failed attempt, including the final one
before the exhaustion error, so the run performs 3 attempts and 3
delays. -/
theorem c3_three_attempts_three_delays :
    (runPhase (fun _ => loginAttempt nextTimeoutEnv) 3 5000 loginExhaustMsg).1 = 3 ∧
    countEv isGotoLogin
      (runPhase (fun _ => loginAttempt nextTimeoutEnv) 3 5000 loginExhaustMsg).2.1 = 3 ∧
    (runPhase (fun _ => loginAttempt nextTimeoutEnv) 3 5000 loginExhaustMsg).2.2
      = Except.error loginExhaustMsg ∧
    countEv isDelay
      (runPhase (fun _ => loginAttempt nextTimeoutEnv) 3 5000 loginExhaustMsg).2.1 = 3 ∧
    ¬ countEv isDelay
      (runPhase (fun _ => loginAttempt nextTimeoutEnv) 3 5000 loginExhaustMsg).2.1 = 2 := by
  refine ⟨rfl, rfl, rfl, rfl, ?_⟩
  decide

/-- C3 amended: a delay follows every failed attempt, including the last
one before exhaustion — an all-fail run with bound `N` incurs exactly
`N` delays (not `N - 1`) — while a successful attempt incurs no delay
after it: if the first success is attempt `k` (0-indexed, `k < N`), the
phase incurs exactly `k` delays and succeeds. -/
theorem c3_delay_count (N d k : Nat) (envs : Nat → AttemptEnv) :
    ((∀ i, (loginAttempt (envs i)).2 ≠ some true) →
      countEv isDelay (runPhase (fun i => loginAttempt (envs i)) N d loginExhaustMsg).2.1 = N) ∧
    ((loginAttempt (envs k)).2 = some true →
      (∀ i, i < k → (loginAttempt (envs i)).2 ≠ some true) →
      k < N →
      countEv isDelay (runPhase (fun i => loginAttempt (envs i)) N d loginExhaustMsg).2.1 = k ∧
      (runPhase (fun i => loginAttempt (envs i)) N d loginExhaustMsg).2.2 = Except.ok ()) := by
  constructor
  · intro h
    rw [runPhase_trace,
      countEv_phaseLoopGo_allFail _ d isDelay 0 h
        (fun i => loginAttempt_count_delay (envs i)) N 0]
    simp [isDelay]
  · intro hk hlt hkN
    have hfst := phaseLoopGo_firstSucc (fun i => loginAttempt (envs i)) d k hk hlt N 0
      (Nat.zero_le k) (by omega)
    constructor
    · rw [runPhase_trace,
        countEv_phaseLoopGo_firstSucc _ d isDelay 0 k hk hlt
          (fun i => loginAttempt_count_delay (envs i)) N 0 (Nat.zero_le k) (by omega)]
      simp [isDelay]
    · rw [runPhase_result, hfst.1, if_neg (by omega)]

/-- C3 witness: the delay-count theorem evaluated on an all-fail run
with bound 3 (three delays) and on a run whose first attempt fails and
second succeeds (one delay, phase succeeds). -/
theorem c3_delay_count_witness :
    countEv isDelay
      (runPhase (fun _ => loginAttempt nextTimeoutEnv) 3 5000 loginExhaustMsg).2.1 = 3 ∧
    countEv isDelay
      (runPhase (fun i => loginAttempt (failThenHappy i)) 3 5000 loginExhaustMsg).2.1 = 1 ∧
    (runPhase (fun i => loginAttempt (failThenHappy i)) 3 5000 loginExhaustMsg).2.2
      = Except.ok () := by
  have h1 := (c3_delay_count 3 5000 0 (fun _ => nextTimeoutEnv)).1 (fun i => by decide)
  have h2 := (c3_delay_count 3 5000 1 failThenHappy).2 (by rfl)
    (fun i hi => by
      have hz : i = 0 := by omega
      subst hz
      decide)
    (by omega)
  exact ⟨h1, h2.1, h2.2⟩

/-- C5 counterexample: on a Preferences file whose contents do not parse
as JSON, the code does not skip the patch: the catch only logs, the
document variable stays the empty object, and the patched empty object
is written out, replacing the file. -/
theorem c5_parse_error_overwrites :
    updatePreferences (PrefsFile.invalid "i am not json") true
      ≠ PrefsFile.invalid "i am not json" ∧
    updatePreferences (PrefsFile.invalid "i am not json") true
      = PrefsFile.valid (patchPreferences []) :=
  ⟨(fun h => nomatch h), rfl⟩

/-- C5 amended: when reading or parsing the Preferences file fails, the
error is logged but the patch is not skipped — it proceeds on the empty
object and (when the write succeeds) overwrites the file with just the
patched defaults; a failing write leaves the file unchanged; and no such
failure blocks the login phase, which `main` runs regardless of the
file's state. -/
theorem c5_parse_error_behavior (raw : String) (f : PrefsFile) (w : Bool)
    (lenvs : Nat → AttemptEnv) (nenvs : Nat → NavEnv) (a b d : Nat) :
    updatePreferences (PrefsFile.invalid raw) true = PrefsFile.valid (patchPreferences []) ∧
    updatePreferences (PrefsFile.invalid raw) false = PrefsFile.invalid raw ∧
    (main f w lenvs nenvs a b d).2 = loginToRFSActiv lenvs nenvs a b d :=
  ⟨rfl, rfl, rfl⟩

/-- C5 witness: the amended behaviour evaluated at concrete inputs — a
failing write leaves the unparsable file alone, and `main` hands the
driver the same inputs whatever happened to the preferences file. -/
theorem c5_parse_error_behavior_witness :
    updatePreferences (PrefsFile.invalid "i am not json") false
      = PrefsFile.invalid "i am not json" ∧
    (main PrefsFile.absent true (fun _ => happyEnv) (fun _ => happyNavEnv) 5 5 5000).2
      = loginToRFSActiv (fun _ => happyEnv) (fun _ => happyNavEnv) 5 5 5000 := by
  have h := c5_parse_error_behavior "i am not json" PrefsFile.absent true
    (fun _ => happyEnv) (fun _ => happyNavEnv) 5 5 5000
  exact ⟨h.2.1, h.2.2⟩

/-- C6: with the username form present and every wait succeeding, the
attempt's interactions of the kinds the spec enumerates (visibility
waits, typing, clicks, the navigation wait) occur in exactly the
specified order — username wait, username typing, the optional
remember-me click, Next wait, Next click, password wait, password
typing, Verify wait, Verify click, navigation wait.  The second
conjunct gives the full trace: the only other per-attempt operations
are the initial `goto` and a `page.focus` on the username field
between its wait and its typing. -/
theorem c6_form_interaction_order (env : AttemptEnv)
    (hu : env.usernamePresent = true) (hg : env.gotoFails = false)
    (h1 : env.usernameVisibleOk = true) (h2 : env.nextVisibleOk = true)
    (h3 : env.passwordVisibleOk = true) (h4 : env.verifyVisibleOk = true)
    (h5 : env.navOk = true) :
    List.filter isFormStep (loginAttempt env).1
      = [Ev.waitVisible Sel.username, Ev.typeText Sel.username]
        ++ (if env.rememberMePresent then [Ev.click Sel.rememberMe] else [])
        ++ [Ev.waitVisible Sel.nextButton, Ev.click Sel.nextButton,
            Ev.waitVisible Sel.password, Ev.typeText Sel.password,
            Ev.waitVisible Sel.verifyButton, Ev.click Sel.verifyButton, Ev.waitNavigation] ∧
    (loginAttempt env).1
      = [Ev.goto Target.login, Ev.waitVisible Sel.username, Ev.focus Sel.username,
         Ev.typeText Sel.username]
        ++ (if env.rememberMePresent then [Ev.click Sel.rememberMe] else [])
        ++ [Ev.waitVisible Sel.nextButton, Ev.click Sel.nextButton,
            Ev.waitVisible Sel.password, Ev.typeText Sel.password,
            Ev.waitVisible Sel.verifyButton, Ev.click Sel.verifyButton, Ev.waitNavigation] := by
  rcases env with ⟨gf, up, uv, rm, nv, pv, vv, nav, url⟩
  cases gf <;> cases up <;> cases uv <;> cases rm <;> cases nv <;> cases pv <;>
    cases vv <;> cases nav <;> first | exact ⟨rfl, rfl⟩ | simp_all

/-- C6 witness: the order theorem evaluated on a fully cooperative page
with the remember-me control present. -/
theorem c6_form_interaction_order_witness :
    List.filter isFormStep (loginAttempt happyEnv).1
      = [Ev.waitVisible Sel.username, Ev.typeText Sel.username, Ev.click Sel.rememberMe,
         Ev.waitVisible Sel.nextButton, Ev.click Sel.nextButton,
         Ev.waitVisible Sel.password, Ev.typeText Sel.password,
         Ev.waitVisible Sel.verifyButton, Ev.click Sel.verifyButton, Ev.waitNavigation] := by
  have h := c6_form_interaction_order happyEnv rfl rfl rfl rfl rfl rfl rfl
  simpa using h.1

/-- C7: after the form flow completes its final navigation, the
attempt's outcome is `some` of the pure URL test `isloggedInPage` — a
function of the destination URL alone (the environment carries no page
content at all) — and that test is exactly the disjunction of the two
substring matches, each of the two URLs alone being accepted. -/
theorem c7_success_is_url_only (env : AttemptEnv)
    (hu : env.usernamePresent = true) (hg : env.gotoFails = false)
    (h1 : env.usernameVisibleOk = true) (h2 : env.nextVisibleOk = true)
    (h3 : env.passwordVisibleOk = true) (h4 : env.verifyVisibleOk = true)
    (h5 : env.navOk = true) :
    (loginAttempt env).2 = some (isloggedInPage env.urlAfter) ∧
    isloggedInPage env.urlAfter
      = (jsIncludes env.urlAfter dashboardUrl || jsIncludes env.urlAfter webappUrl) ∧
    isloggedInPage dashboardUrl = true ∧
    isloggedInPage webappUrl = true := by
  rcases env with ⟨gf, up, uv, rm, nv, pv, vv, nav, url⟩
  cases gf <;> cases up <;> cases uv <;> cases rm <;> cases nv <;> cases pv <;>
    cases vv <;> cases nav <;> first | exact ⟨rfl, rfl, rfl, rfl⟩ | simp_all

/-- C7 witness: the URL-only success theorem evaluated on a cooperative
page landing on the dashboard URL. -/
theorem c7_success_is_url_only_witness :
    (loginAttempt happyEnv).2 = some true ∧ isloggedInPage dashboardUrl = true := by
  have h := c7_success_is_url_only happyEnv rfl rfl rfl rfl rfl rfl rfl
  exact ⟨h.1.trans (show some (isloggedInPage happyEnv.urlAfter) = some true from rfl), h.2.2.1⟩

/-- C8: the substring-based authenticated-state check accepts the login
page URL itself, because the login URL contains the webapp base URL as
a prefix; hence a post-form navigation that lands back on the login URL
is classified as a successful login. -/
theorem c8_login_url_classified_logged_in :
    jsIncludes loginUrl webappUrl = true ∧
    isloggedInPage loginUrl = true ∧
    (loginAttempt landedOnLoginEnv).2 = some true :=
  ⟨rfl, rfl, rfl⟩

/-- C9: the preferences patch is a no-op when the file is absent, and on
a parsed document it touches only the designated keys: every top-level
key other than `profile`, `credentials_enable_service`,
`credentials_enable_autosignin` and `session` is unchanged, every
`profile` subkey other than the two password-manager flags is unchanged,
every `session` subkey other than the two restore keys is unchanged, and
the six designated keys receive their forced values.  The two
`objOrAbsent` hypotheses restrict to documents whose `profile` and
`session`, when present, are objects — the shape Chrome writes and the
domain on which the embedding matches JavaScript's spread and
`||`-defaulting. -/
theorem c9_preferences_frame (p : List (String × JVal)) (k : String) (w : Bool)
    (hp : objOrAbsent (getKey "profile" p)) (hs : objOrAbsent (getKey "session" p)) :
    updatePreferences PrefsFile.absent w = PrefsFile.absent ∧
    updatePreferences (PrefsFile.valid p) true = PrefsFile.valid (patchPreferences p) ∧
    (k ≠ "profile" → k ≠ "credentials_enable_service" →
     k ≠ "credentials_enable_autosignin" → k ≠ "session" →
      getKey k (patchPreferences p) = getKey k p) ∧
    (k ≠ "password_manager_leak_detection" → k ≠ "password_manager_enabled" →
      getKey k (objFields (getKey "profile" (patchPreferences p)))
        = getKey k (objFields (getKey "profile" p))) ∧
    (k ≠ "restore_on_startup" → k ≠ "restore_on_startup_urls" →
      getKey k (objFields (getKey "session" (patchPreferences p)))
        = getKey k (objFields (getKey "session" p))) ∧
    getKey "credentials_enable_service" (patchPreferences p) = some (JVal.jbool false) ∧
    getKey "credentials_enable_autosignin" (patchPreferences p) = some (JVal.jbool false) ∧
    getKey "password_manager_leak_detection"
      (objFields (getKey "profile" (patchPreferences p))) = some (JVal.jbool false) ∧
    getKey "password_manager_enabled"
      (objFields (getKey "profile" (patchPreferences p))) = some (JVal.jbool false) ∧
    getKey "restore_on_startup"
      (objFields (getKey "session" (patchPreferences p))) = some (JVal.jnum 0) ∧
    getKey "restore_on_startup_urls"
      (objFields (getKey "session" (patchPreferences p))) = some (JVal.jarr []) := by
  have hprof : getKey "profile" (patchPreferences p)
      = some (JVal.jobj (setKey "password_manager_enabled" (JVal.jbool false)
          (setKey "password_manager_leak_detection" (JVal.jbool false)
            (objFields (getKey "profile" p))))) := by
    simp only [patchPreferences]
    rw [getKey_setKey_ne "profile" "session" (by decide),
      getKey_setKey_ne "profile" "credentials_enable_autosignin" (by decide),
      getKey_setKey_ne "profile" "credentials_enable_service" (by decide),
      getKey_setKey_eq]
  have hsess : getKey "session" (patchPreferences p)
      = some (JVal.jobj (setKey "restore_on_startup_urls" (JVal.jarr [])
          (setKey "restore_on_startup" (JVal.jnum 0)
            (objFields (getKey "session" p))))) := by
    simp only [patchPreferences]
    rw [getKey_setKey_eq,
      getKey_setKey_ne "session" "credentials_enable_autosignin" (by decide),
      getKey_setKey_ne "session" "credentials_enable_service" (by decide),
      getKey_setKey_ne "session" "profile" (by decide)]
  refine ⟨rfl, rfl, ?_, ?_, ?_, ?_, ?_, ?_, ?_, ?_, ?_⟩
  · intro h1 h2 h3 h4
    simp only [patchPreferences]
    rw [getKey_setKey_ne k "session" h4,
      getKey_setKey_ne k "credentials_enable_autosignin" h3,
      getKey_setKey_ne k "credentials_enable_service" h2,
      getKey_setKey_ne k "profile" h1]
  · intro h1 h2
    rw [hprof]
    simp only [objFields]
    rw [getKey_setKey_ne k "password_manager_enabled" h2,
      getKey_setKey_ne k "password_manager_leak_detection" h1]
  · intro h1 h2
    rw [hsess]
    simp only [objFields]
    rw [getKey_setKey_ne k "restore_on_startup_urls" h2,
      getKey_setKey_ne k "restore_on_startup" h1]
  · simp only [patchPreferences]
    rw [getKey_setKey_ne "credentials_enable_service" "session" (by decide),
      getKey_setKey_ne "credentials_enable_service" "credentials_enable_autosignin" (by decide),
      getKey_setKey_eq]
  · simp only [patchPreferences]
    rw [getKey_setKey_ne "credentials_enable_autosignin" "session" (by decide),
      getKey_setKey_eq]
  · rw [hprof]
    simp only [objFields]
    rw [getKey_setKey_ne "password_manager_leak_detection" "password_manager_enabled" (by decide),
      getKey_setKey_eq]
  · rw [hprof]
    simp only [objFields]
    rw [getKey_setKey_eq]
  · rw [hsess]
    simp only [objFields]
    rw [getKey_setKey_ne "restore_on_startup" "restore_on_startup_urls" (by decide),
      getKey_setKey_eq]
  · rw [hsess]
    simp only [objFields]
    rw [getKey_setKey_eq]

/-- C9 witness: the frame theorem evaluated on a sample document —
the undesignated top-level key `homepage` is preserved, the absent file
is untouched, and a designated flag receives its forced value. -/
theorem c9_preferences_frame_witness :
    updatePreferences PrefsFile.absent false = PrefsFile.absent ∧
    getKey "homepage" (patchPreferences demoPrefs) = getKey "homepage" demoPrefs ∧
    getKey "name" (objFields (getKey "profile" (patchPreferences demoPrefs)))
      = getKey "name" (objFields (getKey "profile" demoPrefs)) ∧
    getKey "password_manager_enabled"
      (objFields (getKey "profile" (patchPreferences demoPrefs))) = some (JVal.jbool false) := by
  have h := c9_preferences_frame demoPrefs "homepage" false
    (Or.inr ⟨_, rfl⟩) (Or.inr ⟨_, rfl⟩)
  have h2 := c9_preferences_frame demoPrefs "name" false
    (Or.inr ⟨_, rfl⟩) (Or.inr ⟨_, rfl⟩)
  exact ⟨h.1, h.2.2.1 (by decide) (by decide) (by decide) (by decide),
    h2.2.2.2.1 (by decide) (by decide), h.2.2.2.2.2.2.2.2.1⟩

/-- C10: with the form present, the absence of the remember-me control
changes nothing but the one click: the attempt's outcome is identical to
the outcome with the control present, and the trace with the control
present, minus the remember-me click, is exactly the trace with it
absent — so a missing control never fails the attempt and the flow
proceeds identically from the Next-button step on. -/
theorem c10_remember_me_absence_harmless (env : AttemptEnv)
    (hu : env.usernamePresent = true) :
    (loginAttempt { env with rememberMePresent := false }).2
      = (loginAttempt { env with rememberMePresent := true }).2 ∧
    List.filter (fun e => ! isRmClick e)
        (loginAttempt { env with rememberMePresent := true }).1
      = (loginAttempt { env with rememberMePresent := false }).1 := by
  rcases env with ⟨gf, up, uv, rm, nv, pv, vv, nav, url⟩
  cases gf <;> cases up <;> cases uv <;> cases rm <;> cases nv <;> cases pv <;>
    cases vv <;> cases nav <;> first | exact ⟨rfl, rfl⟩ | simp_all

/-- C10 witness: the remember-me theorem evaluated on a cooperative
page. -/
theorem c10_remember_me_absence_harmless_witness :
    (loginAttempt { happyEnv with rememberMePresent := false }).2
      = (loginAttempt { happyEnv with rememberMePresent := true }).2 := by
  exact (c10_remember_me_absence_harmless happyEnv rfl).1

end RFSActiv
